import Mathlib

/-!
# WordPress Deployer — verification of the job-lifecycle orchestration

Shallow embedding of the backend of the `wordpress-deployer` repository:

* `src/backend/index.js` — the HTTP handlers (`/deploy`, `/save-credentials`,
  `/upload/:jobId`, `/upload/:jobId/stream`, `/api/resume-deploy/:jobId`);
* `src/unnamed/part_003` — the FTP uploader (`uploadToFtp`) and the cPanel
  database manager (`createWordPressDatabase`, `createWordPressDatabaseManual`,
  `generateStrongPassword`);
* `src/unnamed/part_004` — the cPanel credential validator
  (`validateCpanelCredentials`, `getFtpCredentials`).

JavaScript objects whose fields may be absent (`undefined`) are modelled with
`Option`; JS string falsiness (`!s` is true for `undefined` and `""`) is
modelled by `present`.  External I/O (HTTP probes, UAPI calls, FTP transfers,
the local filesystem) is modelled by explicit oracle records: a handler is a
pure function of its inputs and an oracle describing every outcome the
environment may produce.  Each handler returns, besides its HTTP response and
the final persisted job record, the ordered trace of externally visible events
(job-file writes, credential-file writes, network calls), so that ordering and
"no write happened" statements are plain facts about the trace.
-/

namespace WordpressDeployer

/-- JS truthiness of an optional string field: `!x` is true when the field is
absent (`undefined`) or the empty string. -/
def present (x : Option String) : Bool :=
  match x with
  | none => false
  | some s => s ≠ ""

/-! ## Field-format validators of `POST /deploy` (src/backend/index.js:106-116)

The handler tests the submitted domain against
`/^[a-zA-Z0-9][a-zA-Z0-9-]{1,61}[a-zA-Z0-9]\.[a-zA-Z]{2,}$/` and the email
against `/^[^\s@]+@[^\s@]+\.[^\s@]+$/`.

For the domain pattern: the three character classes before the literal dot
exclude `'.'` and the class after it is letters only, so a string can match
only if it contains exactly one `'.'`; the part before it must have length
3..63 (one leading alphanumeric, 1..61 middle characters from `[a-zA-Z0-9-]`,
one trailing alphanumeric) and the part after it must be 2 or more letters.

For the email pattern: `[^\s@]` forbids whitespace and `'@'`, so a match
forces exactly one `'@'`; a nonempty `'@'`-free whitespace-free local part;
and, after the `'@'`, a whitespace-free `'@'`-free remainder containing a
`'.'` that is neither its first nor its last character (the regex engine may
pick any such dot). -/

/-- `[a-zA-Z0-9]` (ASCII, as in the source regex). -/
def isAlnumChar (c : Char) : Bool := c.isAlpha || c.isDigit

/-- `[a-zA-Z0-9-]`. -/
def isAlnumDashChar (c : Char) : Bool := isAlnumChar c || c = '-'

/-- The domain test of `POST /deploy` (src/backend/index.js:106-110). -/
def domainTest (s : String) : Bool :=
  let cs := s.toList
  cs.countP (· = '.') = 1 &&
  (let pre := cs.takeWhile (· ≠ '.')
   let post := (cs.dropWhile (· ≠ '.')).drop 1
   decide (3 ≤ pre.length) && decide (pre.length ≤ 63) &&
   isAlnumChar (pre.headD '.') && isAlnumChar (pre.getLastD '.') &&
   ((pre.drop 1).dropLast.all isAlnumDashChar) &&
   decide (2 ≤ post.length) && post.all Char.isAlpha)

/-- `[^\s@]`. -/
def emailOkChar (c : Char) : Bool := !c.isWhitespace && c ≠ '@'

/-- The email test of `POST /deploy` (src/backend/index.js:113-116). -/
def emailTest (s : String) : Bool :=
  let cs := s.toList
  cs.countP (· = '@') = 1 &&
  (let a := cs.takeWhile (· ≠ '@')
   let rest := (cs.dropWhile (· ≠ '@')).drop 1
   decide (a ≠ []) && a.all emailOkChar && rest.all emailOkChar &&
   ((rest.drop 1).dropLast.contains '.'))

/-! ## Data model -/

/-- The manual-database-setup instruction object built by
`createWordPressDatabaseManual` (src/unnamed/part_003:1078-1084). -/
structure DbInstructions where
  cpanelUrl : String
  databaseName : String
  databaseUser : String
  databasePassword : String
  domain : String
deriving DecidableEq, Inhabited

/-- A persisted job record (`jobs/<id>.json`).  Fields that the JS code may
leave `undefined` are `Option`s; `POST /deploy` writes only the first block
(src/backend/index.js:119-129). -/
structure Job where
  id : String
  template : String
  domain : String
  email : String
  phone : String
  address : String
  logo : String
  status : String
  timestamp : String
  credentialId : Option String := none
  uploadStartedAt : Option String := none
  dbName : Option String := none
  dbUser : Option String := none
  dbPass : Option String := none
  manualDbSetup : Option Bool := none
  dbInstructions : Option DbInstructions := none
  uploadCompletedAt : Option String := none
  error : Option String := none
  failedAt : Option String := none
deriving DecidableEq, Inhabited

/-- A persisted credential record (`credentials/<id>.json`,
src/backend/index.js:347-356). -/
structure Credential where
  id : String
  name : String
  host : String
  username : String
  password : String
  port : Nat
  validatedAt : Option String := none
  lastUsed : Option String := none
deriving DecidableEq, Inhabited

/-- Externally visible side effects of a handler run, in program order. -/
inductive Event where
  /-- `fs.writeFileSync(jobs/<id>.json, job)` -/
  | jobWrite (id : String) (j : Job)
  /-- `fs.writeFileSync(credentials/<id>.json, cred)` -/
  | credWrite (id : String) (c : Credential)
  /-- the `createWordPressDatabase` network call -/
  | netDbCreate
  /-- the `getFtpCredentials` network call -/
  | netFtpCreds
  /-- the `uploadToFtp` connection/transfer -/
  | netFtpUpload
deriving DecidableEq

/-! ## `POST /deploy` (src/backend/index.js:91-146) -/

/-- The multipart form of `POST /deploy`; `logo` is the uploaded file's stored
filename (`req.file ? req.file.filename : null`). -/
structure DeployRequest where
  template : Option String
  domain : Option String
  email : Option String
  phone : Option String
  address : Option String
  logo : Option String
deriving DecidableEq

inductive DeployResponse where
  /-- 400 `Missing required fields` -/
  | missingFields
  /-- 400 `Invalid domain format` -/
  | invalidDomain
  /-- 400 `Invalid email format` -/
  | invalidEmail
  /-- 200 `{jobId, jobData, nextStep}` -/
  | created (jobId : String) (jobData : Job)
deriving DecidableEq

structure DeployResult where
  response : DeployResponse
  events : List Event
deriving DecidableEq

/-- The job record `POST /deploy` builds for a fully validated submission
(src/backend/index.js:119-129); `uuid` models `uuidv4()` and `now` models
`new Date().toISOString()`. -/
def deployJobRecord (t d e p a l uuid now : String) : Job :=
  { id := uuid, template := t, domain := d, email := e, phone := p,
    address := a, logo := l, status := "created", timestamp := now }

/-- The `POST /deploy` handler (src/backend/index.js:91-146). -/
def deployHandler (req : DeployRequest) (uuid now : String) : DeployResult :=
  if present req.template && present req.domain && present req.email &&
      present req.phone && present req.address && present req.logo then
    match req.template, req.domain, req.email, req.phone, req.address, req.logo with
    | some t, some d, some e, some p, some a, some l =>
      if !domainTest d then { response := .invalidDomain, events := [] }
      else if !emailTest e then { response := .invalidEmail, events := [] }
      else
        let job := deployJobRecord t d e p a l uuid now
        { response := .created uuid job, events := [Event.jobWrite uuid job] }
    | _, _, _, _, _, _ => { response := .missingFields, events := [] }
  else { response := .missingFields, events := [] }

/-! ## Credential validation (src/unnamed/part_004, `validateCpanelCredentials`)

Each candidate endpoint probe (`axios.get` with `validateStatus: status < 500`)
either resolves with a status code `< 500` or rejects with an error carrying a
Node error `code` and a message.  The network's behaviour is an oracle mapping
the endpoint path to its outcome. -/

inductive ProbeOutcome where
  /-- the request resolved with this HTTP status (axios accepts `status < 500`) -/
  | status (code : Nat)
  /-- the request rejected; `code` is the Node error code (may be empty), `msg`
  the error message -/
  | netError (code : String) (msg : String)

/-- The result object `validateCpanelCredentials` resolves with
(src/unnamed/part_004:68-186). -/
structure ValidationResult where
  valid : Bool
  message : String
  host : String
  username : String
  port : Nat
  endpoint : Option String := none
  error : Option String := none
  suggestion : Option String := none
deriving DecidableEq

/-- `host.replace(/^https?:\/\//, "")` (src/unnamed/part_004:23): strip one
leading `https://` or `http://`. -/
def cleanHost (h : String) : String :=
  let cs := h.toList
  if cs.take 8 = "https://".toList then String.mk (cs.drop 8)
  else if cs.take 7 = "http://".toList then String.mk (cs.drop 7)
  else h

/-- The fixed ordered candidate list (src/unnamed/part_004:30-35). -/
def validationEndpoints : List String :=
  ["/execute/1/", "/execute/", "/json-api/1/", "/json-api/"]

/-- The error codes on which the loop fast-fails
(src/unnamed/part_004:105-114). -/
def fastFailCode (c : String) : Bool :=
  c = "ENOTFOUND" || c = "ECONNREFUSED" || c = "ETIMEDOUT"

/-- The generic could-not-validate result returned when the candidate loop ends
without a definitive outcome (src/unnamed/part_004:120-130). -/
def genericValidationFailure (host user : String) (port : Nat)
    (lastError : Option String) : ValidationResult :=
  { valid := false,
    message := "Failed to validate cPanel credentials. Please check your hosting provider\x27s cPanel configuration.",
    host := host, username := user, port := port,
    error := lastError,
    suggestion := some "Some hosting providers disable cPanel API access. You may need to contact your hosting provider." }

/-- The endpoint loop of `validateCpanelCredentials`
(src/unnamed/part_004:39-130), threading `lastError` exactly as the source
does; a fast-fail network error `break`s out of the loop and falls through to
the generic failure result. -/
def validateLoop (host user : String) (port : Nat)
    (probe : String → ProbeOutcome) :
    List String → Option String → ValidationResult
  | [], lastError => genericValidationFailure host user port lastError
  | ep :: rest, lastError =>
    match probe ep with
    | .status c =>
      if c = 200 then
        { valid := true, message := "cPanel credentials are valid",
          host := host, username := user, port := port, endpoint := some ep }
      else if c = 401 then
        { valid := false, message := "Invalid username or password",
          host := host, username := user, port := port, endpoint := some ep }
      else if c = 403 then
        { valid := false,
          message := "cPanel API access is disabled or restricted",
          host := host, username := user, port := port, endpoint := some ep }
      else
        validateLoop host user port probe rest
          (some ("Unexpected response from cPanel (Status: " ++ toString c ++ ")"))
    | .netError code msg =>
      if fastFailCode code then genericValidationFailure host user port (some msg)
      else validateLoop host user port probe rest (some msg)

/-- `validateCpanelCredentials` (src/unnamed/part_004:12-188): throws (models
the JS `throw`) exactly when host, username or password is falsy; otherwise
every path — including the outer catch, whose branches all `return` result
objects — resolves with a `ValidationResult`. -/
def validateCpanelCredentials (host username password : Option String)
    (port : Nat) (probe : String → ProbeOutcome) :
    Except String ValidationResult :=
  match host, username, password with
  | some h, some u, some p =>
    if h = "" || u = "" || p = "" then
      .error "Missing required credentials (host, username, or password)"
    else
      .ok (validateLoop (cleanHost h) u port probe validationEndpoints none)
  | _, _, _ =>
    .error "Missing required credentials (host, username, or password)"

/-! ## Password generation (src/unnamed/part_003:797-821,
`generateStrongPassword`)

`Math.floor(Math.random() * set.length)` is modelled by an arbitrary pick
function reduced modulo the character-set length; the final
`.sort(() => Math.random() - 0.5)` shuffle produces some permutation of the
generated characters, which the theorems quantify over. -/

def uppercaseChars : List Char :=
  ['A','B','C','D','E','F','G','H','I','J','K','L','M','N','O','P','Q','R','S','T','U','V','W','X','Y','Z']

def lowercaseChars : List Char :=
  ['a','b','c','d','e','f','g','h','i','j','k','l','m','n','o','p','q','r','s','t','u','v','w','x','y','z']

def numberChars : List Char :=
  ['0','1','2','3','4','5','6','7','8','9']

def symbolChars : List Char :=
  ['!','@','#','$','%','^','&','*','(',')','_','+','-','=','[',']','{','}','|',';',':',',','.','<','>','?']

/-- `allChars = uppercase + lowercase + numbers + symbols`. -/
def allPasswordChars : List Char :=
  uppercaseChars ++ lowercaseChars ++ numberChars ++ symbolChars

/-- One random pick from a character set. -/
def pickChar (l : List Char) (k : Nat) : Char := l.getD (k % l.length) 'A'

/-- The characters `generateStrongPassword` assembles before shuffling: one
forced character from each category followed by 12 picks from the combined
set (src/unnamed/part_003:804-814). -/
def generatedPasswordChars (picks : Nat → Nat) : List Char :=
  [pickChar uppercaseChars (picks 0), pickChar lowercaseChars (picks 1),
   pickChar numberChars (picks 2), pickChar symbolChars (picks 3)] ++
  (List.range 12).map (fun i => pickChar allPasswordChars (picks (4 + i)))

/-! ## Database provisioning (src/unnamed/part_003:833-1086) -/

/-- What `createWordPressDatabase` resolves with: real credentials
(`manual = false`) or the manual fallback of `createWordPressDatabaseManual`
(`manual = true` plus instructions). -/
structure DbProvisionResult where
  dbName : String
  dbUser : String
  dbPass : String
  manual : Bool
  instructions : Option DbInstructions := none
deriving DecidableEq

/-- cPanel account configuration passed to the database manager. -/
structure CpanelConfig where
  host : String
  username : String
  password : String
  port : Nat
deriving DecidableEq

/-- Environment behaviour for one `createWordPressDatabase` run: the outcomes
of the Namecheap-profile connectivity test, of the generic cPanel connectivity
test, and of the three sequential UAPI calls, plus the run's random choices.
Each `Except.error` models a rejected promise. -/
structure ProvisionOracle where
  namecheapTest : Except String String
  cpanelTest : Except String String
  createDb : Except String Unit
  createUser : Except String Unit
  grantPrivileges : Except String Unit
  /-- `Math.random().toString(36).substring(2, 8)` in the API path -/
  randomSuffix : String
  /-- random picks of the API path's `generateStrongPassword` call -/
  passwordPicks : Nat → Nat
  /-- fresh `Math.random().toString(36).substring(2, 8)` of the manual fallback -/
  manualSuffix : String
  /-- random picks of the manual fallback's `generateStrongPassword` call -/
  manualPasswordPicks : Nat → Nat

/-- `createWordPressDatabaseManual` (src/unnamed/part_003:1040-1086): always
resolves with `manual = true` and an instruction object.  The password shuffle
is content-irrelevant here and is kept unshuffled; the shuffle is treated in
the password theorems, which quantify over every permutation. -/
def createWordPressDatabaseManual (cfg : CpanelConfig) (domain : String)
    (suffix : String) (picks : Nat → Nat) : DbProvisionResult :=
  let prefixedDbName := cfg.username ++ "_" ++ ("wp_" ++ suffix)
  let prefixedDbUser := cfg.username ++ "_" ++ ("wpuser_" ++ suffix)
  let dbPass := String.mk (generatedPasswordChars picks)
  { dbName := prefixedDbName, dbUser := prefixedDbUser, dbPass := dbPass,
    manual := true,
    instructions := some
      { cpanelUrl := "https://" ++ cfg.host ++ ":2083",
        databaseName := prefixedDbName, databaseUser := prefixedDbUser,
        databasePassword := dbPass, domain := domain } }

/-- `createWordPressDatabase` (src/unnamed/part_003:833-916): tries the
Namecheap connectivity test, then the generic one, then the three UAPI calls;
any rejection anywhere in the `try` block is caught and answered with the
manual fallback, so the function itself never rejects. -/
def createWordPressDatabase (cfg : CpanelConfig) (domain : String)
    (o : ProvisionOracle) : DbProvisionResult :=
  let attempt : Except String Unit := do
    let _ ← match o.namecheapTest with
      | .ok ep => Except.ok ep
      | .error _ => o.cpanelTest
    o.createDb
    o.createUser
    o.grantPrivileges
  match attempt with
  | .ok _ =>
    { dbName := cfg.username ++ "_" ++ ("wp_" ++ o.randomSuffix),
      dbUser := cfg.username ++ "_" ++ ("wpuser_" ++ o.randomSuffix),
      dbPass := String.mk (generatedPasswordChars o.passwordPicks),
      manual := false }
  | .error _ =>
    createWordPressDatabaseManual cfg domain o.manualSuffix o.manualPasswordPicks

/-! ## FTP credential derivation (src/unnamed/part_004:195-239)

`getFtpCredentials` catches every failure and resolves with
`{success:false, message, error}`; on success it resolves with
`{success:true, credentials:{host, user, pass, port:21}}`.  The handlers only
consume this result object, so the result itself is the oracle. -/

structure FtpCredentials where
  host : String
  user : String
  pass : String
  port : Nat := 21
deriving DecidableEq

structure FtpResult where
  success : Bool
  credentials : FtpCredentials
  message : String
deriving DecidableEq

/-! ## `uploadToFtp` (src/unnamed/part_003:324-645)

Local staging paths are written relative to the backend directory (the
`path.join(__dirname, ...)` prefixes are elided); only their tail components,
which name the artifacts, matter to the claims. -/

/-- Environment behaviour of one `uploadToFtp` run: outcomes of the FTP
connection (including the `ensureDir` calls), the three remote downloads, the
`wp-config-sample.php` read of `generateWpConfigContent`, the local
filesystem's `fs.existsSync`, and each `client.uploadFrom` keyed by the local
path.  Each `Except.error` models a rejected promise / thrown error. -/
structure TransferOracle where
  version : String
  connect : Except String Unit
  wpDownload : Except String Unit
  themeDownload : Except String Unit
  pluginDownload : Except String Unit
  configSample : Except String Unit
  fileExists : String → Bool
  uploadFrom : String → Except String Unit

/-- The `requiredFiles` validation loop (src/unnamed/part_003:474-478): each
entry pairs a local path with the artifact name used in the error message. -/
def checkRequiredFiles (files : List (String × String))
    (fileExists : String → Bool) : Except String Unit :=
  match files with
  | [] => .ok ()
  | (p, n) :: rest =>
    if fileExists p then checkRequiredFiles rest fileExists
    else .error (n ++ " not found at: " ++ p)

/-- One per-file upload step: the `fs.existsSync` re-check followed by
`client.uploadFrom` (the repeated pattern of src/unnamed/part_003:483-611). -/
def uploadOneFile (o : TransferOracle) (localPath : String) :
    Except String Unit :=
  if o.fileExists localPath then o.uploadFrom localPath
  else .error ("File not found: " ++ localPath)

/-- The `requiredFiles` list of src/unnamed/part_003:463-472, as
(path, artifact-name) pairs. -/
def requiredFilesList (jobData : Job) (wpZipPath templatePath : String)
    (templateType : String) (pluginPath logoPath installerPath : String) :
    List (String × String) :=
  [(wpZipPath, "WordPress core ZIP file"),
   (templatePath, "Template: " ++ jobData.template ++ " (" ++ templateType ++ ")"),
   (pluginPath, "All-in-One WP Migration plugin"),
   (logoPath, "Logo: " ++ jobData.logo),
   (installerPath, "Install script")]

/-- `uploadToFtp(hostConfig, jobData)` (src/unnamed/part_003:324-645).  An
`Except.error` is the message of the error the JS function rejects with; the
`finally` cleanup of temp artifacts has no observable effect on the claims and
is elided. -/
def uploadToFtp (hostConfig : FtpCredentials) (jobData : Job)
    (o : TransferOracle) : Except String Unit := do
  if hostConfig.host = "" || hostConfig.user = "" || hostConfig.pass = "" then
    throw "Missing FTP credentials (host, user, or password)"
  if !(jobData.template ≠ "" && jobData.logo ≠ "" && present jobData.dbName &&
       present jobData.dbUser && present jobData.dbPass) then
    throw "Missing required job data (template, logo, or database credentials)"
  o.connect
  let wpZipPath := "temp/wordpress-temp/wordpress-" ++ o.version ++ ".zip"
  o.wpDownload
  let customTemplatePath := "templates/" ++ jobData.template ++ ".wpress"
  let custom := o.fileExists customTemplatePath
  let templatePath ←
    if custom then pure customTemplatePath
    else do
      o.themeDownload
      pure ("temp/themes-temp/" ++ jobData.template ++ ".zip")
  let templateType := if custom then "custom" else "wordpress"
  o.pluginDownload
  let pluginPath := "temp/plugins-temp/all-in-one-wp-migration.zip"
  let logoPath := "uploads/" ++ jobData.logo
  let installerPath := "deploy-scripts/install.php"
  o.configSample
  let wpConfigPath := "temp/wp-config-" ++ jobData.id ++ ".php"
  let jobInfoPath := "temp/job-info.json"
  checkRequiredFiles
    (requiredFilesList jobData wpZipPath templatePath templateType
      pluginPath logoPath installerPath) o.fileExists
  uploadOneFile o wpZipPath
  uploadOneFile o templatePath
  uploadOneFile o pluginPath
  uploadOneFile o "plugins/all-in-one-wp-migration-unlimited-extension.zip"
  uploadOneFile o logoPath
  uploadOneFile o wpConfigPath
  uploadOneFile o installerPath
  uploadOneFile o jobInfoPath

/-! ## `POST /upload/:jobId` (src/backend/index.js:477-607)

The handler is modelled for the case the claims condition on: the job record
and the credential record both exist and `credentialId` was supplied.  The
`createWordPressDatabase` promise is awaited behind an `Except` outcome — the
part_003 implementation never rejects (its `catch` answers with the manual
fallback), but the handler's own `catch` is modelled for any awaited
outcome. -/

structure UploadOracle where
  dbOutcome : Except String DbProvisionResult
  ftpOutcome : FtpResult
  transfer : TransferOracle

inductive UploadResponse where
  /-- 200, with `manualDbSetup` and `dbInstructions` echoed from the job -/
  | ok (manualDbSetup : Bool) (dbInstructions : Option DbInstructions)
  /-- the dead `status === "waiting-for-db"` branch
  (src/backend/index.js:546-552) -/
  | pausedForDb
  /-- 500 `{error:"Upload failed", details}` -/
  | serverError (details : String)
deriving DecidableEq

structure HandlerResult (ρ : Type) where
  response : ρ
  finalJob : Job
  trace : List Event

/-- The job update performed after `createWordPressDatabase` resolves
(src/backend/index.js:535-542). -/
def applyDbResult (j : Job) (db : DbProvisionResult) : Job :=
  { j with dbName := some db.dbName, dbUser := some db.dbUser,
           dbPass := some db.dbPass, manualDbSetup := some db.manual,
           dbInstructions :=
             if db.manual && db.instructions.isSome then db.instructions
             else j.dbInstructions }

/-- The `catch` block of `POST /upload/:jobId` (src/backend/index.js:586-606):
re-read the last persisted job record, mark it failed with the triggering
error's message and a failure timestamp, persist, respond 500. -/
def uploadFail (jobId : String) (persisted : Job) (evts : List Event)
    (msg failTime : String) : HandlerResult UploadResponse :=
  let jf := { persisted with status := "failed", error := some msg,
                             failedAt := some failTime }
  { response := .serverError msg, finalJob := jf,
    trace := evts ++ [Event.jobWrite jobId jf] }

/-- The `POST /upload/:jobId` handler (src/backend/index.js:477-607), given an
existing job and credential.  `now` models the timestamp taken at upload
start, `endTime` the timestamp taken at the terminal write. -/
def uploadHandler (job : Job) (cred : Credential) (o : UploadOracle)
    (now endTime : String) : HandlerResult UploadResponse :=
  let j1 := { job with status := "uploading", uploadStartedAt := some now }
  let e1 := [Event.jobWrite job.id j1, Event.netDbCreate]
  match o.dbOutcome with
  | .error msg => uploadFail job.id j1 e1 msg endTime
  | .ok db =>
    let j2 := applyDbResult j1 db
    let e2 := e1 ++ [Event.jobWrite job.id j2]
    if j2.status = "waiting-for-db" then
      -- src/backend/index.js:546-552: `showDbSetupPause(...)` then `return`
      { response := .pausedForDb, finalJob := j2, trace := e2 }
    else
      let e3 := e2 ++ [Event.netFtpCreds]
      if !o.ftpOutcome.success then
        uploadFail job.id j2 e3
          ("Failed to get FTP credentials: " ++ o.ftpOutcome.message) endTime
      else
        let e4 := e3 ++ [Event.netFtpUpload]
        match uploadToFtp o.ftpOutcome.credentials j2 o.transfer with
        | .error msg => uploadFail job.id j2 e4 msg endTime
        | .ok _ =>
          let j3 := { j2 with status := "uploaded",
                              uploadCompletedAt := some endTime }
          let cred2 := { cred with lastUsed := some endTime }
          { response := .ok (j2.manualDbSetup.getD false) j2.dbInstructions,
            finalJob := j3,
            trace := e4 ++ [Event.jobWrite job.id j3,
                            Event.credWrite cred.id cred2] }

/-- The `POST /upload/:jobId/stream` handler's orchestration core
(src/backend/index.js:708-839): same step sequence, but with no
`waiting-for-db` pause check at all. -/
def streamUploadHandler (job : Job) (cred : Credential) (o : UploadOracle)
    (now endTime : String) : HandlerResult UploadResponse :=
  let j1 := { job with status := "uploading", uploadStartedAt := some now }
  let e1 := [Event.jobWrite job.id j1, Event.netDbCreate]
  match o.dbOutcome with
  | .error msg => uploadFail job.id j1 e1 msg endTime
  | .ok db =>
    let j2 := applyDbResult j1 db
    let e2 := e1 ++ [Event.jobWrite job.id j2, Event.netFtpCreds]
    if !o.ftpOutcome.success then
      uploadFail job.id j2 e2
        ("Failed to get FTP credentials: " ++ o.ftpOutcome.message) endTime
    else
      let e3 := e2 ++ [Event.netFtpUpload]
      match uploadToFtp o.ftpOutcome.credentials j2 o.transfer with
      | .error msg => uploadFail job.id j2 e3 msg endTime
      | .ok _ =>
        let j3 := { j2 with status := "uploaded",
                            uploadCompletedAt := some endTime }
        let cred2 := { cred with lastUsed := some endTime }
        { response := .ok (j2.manualDbSetup.getD false) j2.dbInstructions,
          finalJob := j3,
          trace := e3 ++ [Event.jobWrite job.id j3,
                          Event.credWrite cred.id cred2] }

/-! ## `POST /api/resume-deploy/:jobId` (src/backend/index.js:610-649) -/

inductive ResumeResponse where
  /-- 400 `Job is not waiting for DB setup.` -/
  | invalidState
  /-- 404 `Credential not found` -/
  | credentialNotFound
  /-- 200 `Files uploaded successfully after manual DB setup!` -/
  | ok
  /-- 500 `{error: message}` (the handler's catch does not touch the job) -/
  | serverError (msg : String)
deriving DecidableEq

/-- The `POST /api/resume-deploy/:jobId` handler (src/backend/index.js:610-649)
for an existing job.  The credential lookup key is
`` `${jobData.credentialId}.json` ``: an absent field interpolates as the
literal string `"undefined"`. -/
def resumeHandler (job : Job) (credLookup : String → Option Credential)
    (ftpOutcome : FtpResult) (transfer : TransferOracle) (now : String) :
    HandlerResult ResumeResponse :=
  if job.status ≠ "waiting-for-db" then
    { response := .invalidState, finalJob := job, trace := [] }
  else
    match credLookup (job.credentialId.getD "undefined") with
    | none => { response := .credentialNotFound, finalJob := job, trace := [] }
    | some _ =>
      let e1 := [Event.netFtpCreds]
      if !ftpOutcome.success then
        { response := .serverError
            ("Failed to get FTP credentials: " ++ ftpOutcome.message),
          finalJob := job, trace := e1 }
      else
        let e2 := e1 ++ [Event.netFtpUpload]
        match uploadToFtp ftpOutcome.credentials job transfer with
        | .error msg =>
          { response := .serverError msg, finalJob := job, trace := e2 }
        | .ok _ =>
          let j2 := { job with status := "uploaded",
                               uploadCompletedAt := some now }
          { response := .ok, finalJob := j2,
            trace := e2 ++ [Event.jobWrite job.id j2] }

/-! ## `POST /save-credentials` (src/backend/index.js:320-377) -/

inductive SaveResponse where
  /-- 400 `Missing required fields` -/
  | missingFields
  /-- 400 `{error:"Invalid credentials", details}` -/
  | invalidCredentials (details : String)
  /-- 200 `{success:true, credentialId, name}` -/
  | saved (credentialId : String) (name : String)
  /-- 500 `{error:"Failed to save credentials", details}` -/
  | serverError (details : String)
deriving DecidableEq

structure SaveResult where
  response : SaveResponse
  events : List Event

/-- The `POST /save-credentials` handler (src/backend/index.js:320-377):
validate first; persist — with `validatedAt` stamped at save time and the
cleaned host returned by validation — only when validation reports
`valid:true`. -/
def saveCredentialsHandler (host username password name : Option String)
    (port : Nat) (probe : String → ProbeOutcome) (uuid now : String) :
    SaveResult :=
  if !(present host && present username && present password && present name) then
    { response := .missingFields, events := [] }
  else
    match host, username, password, name with
    | some _, some u, some p, some n =>
      match validateCpanelCredentials host username password port probe with
      | .error e => { response := .serverError e, events := [] }
      | .ok vr =>
        if !vr.valid then
          { response := .invalidCredentials vr.message, events := [] }
        else
          let cred : Credential :=
            { id := uuid, name := n, host := vr.host, username := u,
              password := p, port := port, validatedAt := some now,
              lastUsed := none }
          { response := .saved uuid n,
            events := [Event.credWrite uuid cred] }
    | _, _, _, _ => { response := .missingFields, events := [] }

/-- A client-error (4xx) response of `POST /save-credentials`. -/
def SaveResponse.isClientError : SaveResponse → Bool
  | .missingFields => true
  | .invalidCredentials _ => true
  | _ => false

/-! ## Jobs producible by the system's own operations

Every write of a job file performed by any handler of src/backend/index.js:
`POST /deploy` creates the record, and the two upload handlers and the resume
handler rewrite it.  (`DELETE /jobs/:jobId` only removes the file, and the
remaining routes never write a job file.) -/

inductive SystemJob : Job → Prop where
  | deploy (req : DeployRequest) (uuid now id : String) (j : Job) :
      Event.jobWrite id j ∈ (deployHandler req uuid now).events → SystemJob j
  | upload (j : Job) (cred : Credential) (o : UploadOracle)
      (now endTime id : String) (j' : Job) : SystemJob j →
      Event.jobWrite id j' ∈ (uploadHandler j cred o now endTime).trace →
      SystemJob j'
  | stream (j : Job) (cred : Credential) (o : UploadOracle)
      (now endTime id : String) (j' : Job) : SystemJob j →
      Event.jobWrite id j' ∈ (streamUploadHandler j cred o now endTime).trace →
      SystemJob j'
  | resume (j : Job) (credLookup : String → Option Credential)
      (ftpOutcome : FtpResult) (transfer : TransferOracle)
      (now id : String) (j' : Job) : SystemJob j →
      Event.jobWrite id j' ∈ (resumeHandler j credLookup ftpOutcome transfer now).trace →
      SystemJob j'

/-! ## Concrete fixtures for witnesses and counterexamples -/

/-- A fully valid `POST /deploy` submission (the values of
src/unnamed/part_002's test job). -/
def req0 : DeployRequest :=
  { template := some "business-template", domain := some "example.com",
    email := some "admin@example.com", phone := some "+1234567890",
    address := some "123 Main St", logo := some "test-logo.png" }

/-- The job record `POST /deploy` creates for `req0` with id `job-1` at
time `t0`. -/
def job0 : Job :=
  deployJobRecord "business-template" "example.com" "admin@example.com"
    "+1234567890" "123 Main St" "test-logo.png" "job-1" "t0"

def cred0 : Credential :=
  { id := "cred-1", name := "acct", host := "host1.example.com",
    username := "acct", password := "pw12345", port := 2083,
    validatedAt := some "t0", lastUsed := none }

def cfg0 : CpanelConfig :=
  { host := "host1.example.com", username := "acct", password := "pw12345",
    port := 2083 }

/-- A transfer environment in which every connection, download, filesystem
check and upload succeeds. -/
def allOkTransfer : TransferOracle :=
  { version := "6.4.3", connect := .ok (), wpDownload := .ok (),
    themeDownload := .ok (), pluginDownload := .ok (),
    configSample := .ok (), fileExists := fun _ => true,
    uploadFrom := fun _ => .ok () }

def ftpOk : FtpResult :=
  { success := true,
    credentials := { host := "host1.example.com", user := "acct", pass := "pw12345" },
    message := "FTP credentials retrieved from cPanel" }

/-- The manual-fallback provisioning result the connector produces for `cfg0`
when its database API calls fail. -/
def manualDb0 : DbProvisionResult :=
  createWordPressDatabaseManual cfg0 "example.com" "abc123" (fun _ => 0)

/-- A start-upload environment in which database provisioning falls back to
manual instructions and everything afterwards succeeds. -/
def manualOracle : UploadOracle :=
  { dbOutcome := .ok manualDb0, ftpOutcome := ftpOk, transfer := allOkTransfer }

/-- A start-upload environment in which database provisioning rejects. -/
def dbFailOracle : UploadOracle :=
  { dbOutcome := .error "boom", ftpOutcome := ftpOk, transfer := allOkTransfer }

/-- A credential store answering every lookup key with `cred0`. -/
def lookupAny : String → Option Credential := fun _ => some cred0

/-- A probe oracle in which every endpoint answers HTTP 401. -/
def probe401 : String → ProbeOutcome := fun _ => .status 401

/-- A probe oracle in which every endpoint fails at the network level with a
fast-fail error code. -/
def probeNetFail : String → ProbeOutcome :=
  fun _ => .netError "ENOTFOUND" "getaddrinfo ENOTFOUND host1.example.com"

/-- A probe oracle in which every endpoint answers an inconclusive HTTP 500
rejection (axios throws for status 500 under `validateStatus: < 500`). -/
def probeInconclusive : String → ProbeOutcome :=
  fun _ => .netError "" "Request failed with status code 500"

/-- A provisioning environment in which both connectivity tests fail. -/
def provisionFail0 : ProvisionOracle :=
  { namecheapTest := .error "No working Namecheap API endpoint found",
    cpanelTest := .error "No working cPanel API endpoint found. Please check with your hosting provider about API access.",
    createDb := .ok (), createUser := .ok (), grantPrivileges := .ok (),
    randomSuffix := "abc123", passwordPicks := fun _ => 0,
    manualSuffix := "def456", manualPasswordPicks := fun _ => 0 }

/-- `job0` after a completed upload. -/
def jobUploaded0 : Job := { job0 with status := "uploaded" }

/-- Predicate on trace events: any job-file write carries the base job's
`credentialId` unchanged and never carries the status `waiting-for-db`. -/
def preservingWrite (base : Job) : Event → Prop
  | .jobWrite _ j => j.credentialId = base.credentialId ∧ j.status ≠ "waiting-for-db"
  | _ => True

/-! ## Helper lemmas -/

theorem uploadHandler_failed_record (job : Job) (cred : Credential)
    (o : UploadOracle) (now endTime msg : String) :
    (uploadHandler job cred o now endTime).response = .serverError msg →
    (uploadHandler job cred o now endTime).finalJob.status = "failed" ∧
    (uploadHandler job cred o now endTime).finalJob.error = some msg ∧
    (uploadHandler job cred o now endTime).finalJob.failedAt = some endTime := by
  unfold uploadHandler
  rcases hdb : o.dbOutcome with m | db <;> simp only [hdb]
  · simp only [uploadFail]
    intro h
    cases h
    simp
  · split
    · intro h
      exact UploadResponse.noConfusion h
    · split
      · simp only [uploadFail]
        intro h
        cases h
        simp
      · rcases hup : uploadToFtp o.ftpOutcome.credentials _ o.transfer with m' | u <;>
          simp only [hup]
        · simp only [uploadFail]
          intro h
          cases h
          simp
        · intro h
          exact UploadResponse.noConfusion h

theorem uploadHandler_step_counts (job : Job) (cred : Credential)
    (o : UploadOracle) (now endTime : String) :
    (uploadHandler job cred o now endTime).trace.count Event.netDbCreate ≤ 1 ∧
    (uploadHandler job cred o now endTime).trace.count Event.netFtpCreds ≤ 1 ∧
    (uploadHandler job cred o now endTime).trace.count Event.netFtpUpload ≤ 1 := by
  unfold uploadHandler
  rcases hdb : o.dbOutcome with m | db <;> simp only [hdb, uploadFail]
  · simp [List.count_append, List.count_cons]
  · split
    · simp [List.count_append, List.count_cons]
    · split
      · simp [List.count_append, List.count_cons]
      · rcases hup : uploadToFtp o.ftpOutcome.credentials _ o.transfer with m' | u <;>
          simp only [hup] <;> simp [List.count_append, List.count_cons]

theorem checkRequiredFiles_error_spec (files : List (String × String))
    (ex : String → Bool) (em : String)
    (h : checkRequiredFiles files ex = .error em) :
    ∃ pr ∈ files, ex pr.1 = false ∧ em = pr.2 ++ " not found at: " ++ pr.1 := by
  induction files with
  | nil => simp [checkRequiredFiles] at h
  | cons hd tl ih =>
    rw [checkRequiredFiles] at h
    by_cases hex : ex hd.1
    · rw [if_pos hex] at h
      obtain ⟨pr, hm, hp⟩ := ih h
      exact ⟨pr, List.mem_cons_of_mem _ hm, hp⟩
    · rw [if_neg hex] at h
      cases h
      exact ⟨hd, List.mem_cons_self _ _, by simp [hex], rfl⟩

theorem validateCpanelCredentials_ok_of_present (h u p : Option String)
    (port : Nat) (probe : String → ProbeOutcome)
    (hh : present h = true) (hu : present u = true) (hp : present p = true) :
    ∃ r, validateCpanelCredentials h u p port probe = .ok r := by
  rcases h with _ | hs
  · simp [present] at hh
  rcases u with _ | us
  · simp [present] at hu
  rcases p with _ | ps
  · simp [present] at hp
  simp [present] at hh hu hp
  exact ⟨validateLoop (cleanHost hs) us port probe validationEndpoints none,
    by simp [validateCpanelCredentials, hh, hu, hp]⟩

theorem validateCpanelCredentials_error_imp_missing (h u p : Option String)
    (port : Nat) (probe : String → ProbeOutcome) (e : String)
    (he : validateCpanelCredentials h u p port probe = .error e) :
    present h = false ∨ present u = false ∨ present p = false := by
  rcases h with _ | hs
  · exact Or.inl rfl
  rcases u with _ | us
  · exact Or.inr (Or.inl rfl)
  rcases p with _ | ps
  · exact Or.inr (Or.inr rfl)
  by_cases h1 : hs = ""
  · exact Or.inl (by simp [present, h1])
  by_cases h2 : us = ""
  · exact Or.inr (Or.inl (by simp [present, h2]))
  by_cases h3 : ps = ""
  · exact Or.inr (Or.inr (by simp [present, h3]))
  · exfalso
    simp [validateCpanelCredentials, h1, h2, h3] at he

theorem createWordPressDatabase_total_shape (cfg : CpanelConfig)
    (domain : String) (o : ProvisionOracle) :
    (createWordPressDatabase cfg domain o).manual = false ∨
    ((createWordPressDatabase cfg domain o).manual = true ∧
      ∃ i, (createWordPressDatabase cfg domain o).instructions = some i) := by
  unfold createWordPressDatabase
  rcases hA : (do
    let _ ← match o.namecheapTest with
      | .ok ep => Except.ok ep
      | .error _ => o.cpanelTest
    o.createDb
    o.createUser
    o.grantPrivileges : Except String Unit) with m | u
  · simp [hA, createWordPressDatabaseManual]
  · simp [hA]

theorem saveCredentials_invalid_not_persisted (host user pass name : Option String)
    (port : Nat) (probe : String → ProbeOutcome) (uuid now : String)
    (vr : ValidationResult)
    (hok : validateCpanelCredentials host user pass port probe = .ok vr)
    (hval : vr.valid = false) :
    (saveCredentialsHandler host user pass name port probe uuid now).response.isClientError = true ∧
    (saveCredentialsHandler host user pass name port probe uuid now).events = [] := by
  rcases host with _ | hs
  · simp [validateCpanelCredentials] at hok
  rcases user with _ | us
  · simp [validateCpanelCredentials] at hok
  rcases pass with _ | ps
  · simp [validateCpanelCredentials] at hok
  by_cases h1 : hs = ""
  · simp [validateCpanelCredentials, h1] at hok
  by_cases h2 : us = ""
  · simp [validateCpanelCredentials, h2] at hok
  by_cases h3 : ps = ""
  · simp [validateCpanelCredentials, h3] at hok
  rcases name with _ | ns
  · simp [saveCredentialsHandler, present, SaveResponse.isClientError]
  by_cases h4 : ns = ""
  · simp [saveCredentialsHandler, present, h1, h2, h3, h4, SaveResponse.isClientError]
  · simp [validateCpanelCredentials, h1, h2, h3] at hok
    simp [saveCredentialsHandler, present, h1, h2, h3, h4,
      validateCpanelCredentials, hok, hval, SaveResponse.isClientError]

theorem saveCredentials_persisted_is_validated (host user pass name : Option String)
    (port : Nat) (probe : String → ProbeOutcome) (uuid now : String)
    (id : String) (c : Credential)
    (hmem : Event.credWrite id c ∈ (saveCredentialsHandler host user pass name port probe uuid now).events) :
    c.validatedAt = some now ∧
    ∃ vr, validateCpanelCredentials host user pass port probe = .ok vr ∧
      vr.valid = true := by
  rcases host with _ | hs
  · simp [saveCredentialsHandler, present] at hmem
  rcases user with _ | us
  · simp [saveCredentialsHandler, present] at hmem
  rcases pass with _ | ps
  · simp [saveCredentialsHandler, present] at hmem
  rcases name with _ | ns
  · simp [saveCredentialsHandler, present] at hmem
  by_cases h1 : hs = ""
  · simp [saveCredentialsHandler, present, h1] at hmem
  by_cases h2 : us = ""
  · simp [saveCredentialsHandler, present, h1, h2] at hmem
  by_cases h3 : ps = ""
  · simp [saveCredentialsHandler, present, h1, h2, h3] at hmem
  by_cases h4 : ns = ""
  · simp [saveCredentialsHandler, present, h1, h2, h3, h4] at hmem
  · simp only [saveCredentialsHandler, present, h1, h2, h3, h4,
      validateCpanelCredentials, if_neg] at hmem
    rcases hvv : (validateLoop (cleanHost hs) us port probe validationEndpoints none).valid
    · simp [hvv, h1, h2, h3, h4] at hmem
    · simp [hvv, h1, h2, h3, h4] at hmem
      obtain ⟨hid, hc⟩ := hmem
      refine ⟨by simp [hc], ⟨_, ?_, hvv⟩⟩
      simp [validateCpanelCredentials, h1, h2, h3]

theorem deployHandler_reject_bad_domain (t e p a l uuid now : String)
    (ht : t ≠ "") (he : e ≠ "") (hp : p ≠ "") (ha : a ≠ "") (hl : l ≠ "") :
    deployHandler
      { template := some t, domain := some "bad_domain", email := some e,
        phone := some p, address := some a, logo := some l } uuid now =
      { response := .invalidDomain, events := [] } := by
  have hd : domainTest "bad_domain" = false := by decide
  simp [deployHandler, present, ht, he, hp, ha, hl, hd]

theorem deployHandler_accept_example_com (uuid now : String) :
    deployHandler req0 uuid now =
      { response := .created uuid
          (deployJobRecord "business-template" "example.com"
            "admin@example.com" "+1234567890" "123 Main St" "test-logo.png"
            uuid now),
        events := [Event.jobWrite uuid
          (deployJobRecord "business-template" "example.com"
            "admin@example.com" "+1234567890" "123 Main St" "test-logo.png"
            uuid now)] } := by
  have hd : domainTest "example.com" = true := by decide
  have he : emailTest "admin@example.com" = true := by decide
  simp [deployHandler, req0, present, hd, he]

theorem deployHandler_created_status (req : DeployRequest) (uuid now id : String)
    (j : Job) (h : (deployHandler req uuid now).response = .created id j) :
    j.status = "created" := by
  unfold deployHandler at h
  split at h
  · split at h
    · split at h
      · exact DeployResponse.noConfusion h
      · split at h
        · exact DeployResponse.noConfusion h
        · cases h
          rfl
    · exact DeployResponse.noConfusion h
  · exact DeployResponse.noConfusion h

theorem pickChar_mem (l : List Char) (hl : l ≠ []) (k : Nat) :
    pickChar l k ∈ l := by
  have hlen : 0 < l.length := List.length_pos.mpr hl
  have hk : k % l.length < l.length := Nat.mod_lt _ hlen
  unfold pickChar
  rw [List.getD_eq_getElem l 'A' hk]
  exact List.getElem_mem hk

theorem uploadHandler_writes (job : Job) (cred : Credential) (o : UploadOracle)
    (now endTime : String) :
    ∀ e ∈ (uploadHandler job cred o now endTime).trace, preservingWrite job e := by
  unfold uploadHandler
  rcases hdb : o.dbOutcome with m | db <;> simp only [hdb, uploadFail]
  · simp [List.forall_mem_cons, preservingWrite]
  · split
    · simp [List.forall_mem_cons, preservingWrite, applyDbResult]
    · split
      · simp [List.forall_mem_cons, preservingWrite, applyDbResult]
      · rcases hup : uploadToFtp o.ftpOutcome.credentials _ o.transfer with m' | u <;>
          simp only [hup] <;>
          simp [List.forall_mem_cons, preservingWrite, applyDbResult]

theorem streamUploadHandler_writes (job : Job) (cred : Credential)
    (o : UploadOracle) (now endTime : String) :
    ∀ e ∈ (streamUploadHandler job cred o now endTime).trace,
      preservingWrite job e := by
  unfold streamUploadHandler
  rcases hdb : o.dbOutcome with m | db <;> simp only [hdb, uploadFail]
  · simp [List.forall_mem_cons, preservingWrite]
  · split
    · simp [List.forall_mem_cons, preservingWrite, applyDbResult]
    · rcases hup : uploadToFtp o.ftpOutcome.credentials _ o.transfer with m' | u <;>
        simp only [hup] <;>
        simp [List.forall_mem_cons, preservingWrite, applyDbResult]

theorem resumeHandler_writes (job : Job)
    (credLookup : String → Option Credential) (ftpOutcome : FtpResult)
    (transfer : TransferOracle) (now : String) :
    ∀ e ∈ (resumeHandler job credLookup ftpOutcome transfer now).trace,
      preservingWrite job e := by
  unfold resumeHandler
  split
  · simp
  · rcases hcl : credLookup (job.credentialId.getD "undefined") with _ | c <;>
      simp only [hcl]
    · simp
    · split
      · simp [List.forall_mem_cons, preservingWrite]
      · rcases hup : uploadToFtp ftpOutcome.credentials job transfer with m' | u <;>
          simp only [hup] <;>
          simp [List.forall_mem_cons, preservingWrite]

theorem deployHandler_writes (req : DeployRequest) (uuid now : String) :
    ∀ e ∈ (deployHandler req uuid now).events,
      ∀ id j, e = Event.jobWrite id j →
        j.credentialId = none ∧ j.status = "created" := by
  unfold deployHandler
  split
  · split
    · split
      · simp
      · split
        · simp
        · simp only [List.mem_singleton]
          rintro e rfl id j hj
          cases hj
          exact ⟨rfl, rfl⟩
    · simp
  · simp

theorem systemJob_inv (j : Job) (hj : SystemJob j) :
    j.credentialId = none ∧ j.status ≠ "waiting-for-db" := by
  induction hj with
  | deploy req uuid now id j hmem =>
    have := deployHandler_writes req uuid now _ hmem _ _ rfl
    exact ⟨this.1, by rw [this.2]; decide⟩
  | upload j cred o now endTime id j' hj hmem ih =>
    have h := uploadHandler_writes j cred o now endTime _ hmem
    simp only [preservingWrite] at h
    exact ⟨h.1.trans ih.1, h.2⟩
  | stream j cred o now endTime id j' hj hmem ih =>
    have h := streamUploadHandler_writes j cred o now endTime _ hmem
    simp only [preservingWrite] at h
    exact ⟨h.1.trans ih.1, h.2⟩
  | resume j credLookup ftpOutcome transfer now id j' hj hmem ih =>
    have h := resumeHandler_writes j credLookup ftpOutcome transfer now _ hmem
    simp only [preservingWrite] at h
    exact ⟨h.1.trans ih.1, h.2⟩

/-! ## Claim theorems -/

/-- C1: evaluating `POST /upload/:jobId` on the failing input — a run in which
the connector falls back to manual database instructions (`manual = true` with
an instruction object) — shows the code does not behave as the claim states:
the handler never writes a job with status `waiting-for-db` (its pause check
`jobData.status === "waiting-for-db"` compares against a status no code ever
assigns), the pause branch is not taken, and the run proceeds through FTP
credential derivation and file transfer to status `uploaded`, even though the
manual flag and the instructions are persisted. -/
theorem manual_db_fallback_proceeds_to_ftp :
    (uploadHandler job0 cred0 manualOracle "t1" "t2").finalJob.status = "uploaded" ∧
    (uploadHandler job0 cred0 manualOracle "t1" "t2").finalJob.manualDbSetup = some true ∧
    (uploadHandler job0 cred0 manualOracle "t1" "t2").finalJob.dbInstructions = manualDb0.instructions ∧
    (uploadHandler job0 cred0 manualOracle "t1" "t2").response ≠ UploadResponse.pausedForDb ∧
    Event.netFtpCreds ∈ (uploadHandler job0 cred0 manualOracle "t1" "t2").trace ∧
    Event.netFtpUpload ∈ (uploadHandler job0 cred0 manualOracle "t1" "t2").trace ∧
    ((uploadHandler job0 cred0 manualOracle "t1" "t2").trace.all
      (fun e => match e with
        | .jobWrite _ j => j.status ≠ "waiting-for-db"
        | _ => true)) = true := by
  decide

/-- C2: for every start-upload run, whenever any orchestration step rejects
(database provisioning, FTP credential derivation, or any part of the staging
and transfer pipeline, a missing required artifact included), the persisted
job record ends with status `failed`, its `error` field set to exactly the
triggering error's message and a failure timestamp; no network step appears
more than once in the trace (no step is re-executed); and the error produced
by the required-files check is exactly the artifact's name followed by
`" not found at: "` and its path. -/
theorem upload_failure_semantics :
    (∀ (job : Job) (cred : Credential) (o : UploadOracle) (now endTime msg : String),
      (uploadHandler job cred o now endTime).response = .serverError msg →
      (uploadHandler job cred o now endTime).finalJob.status = "failed" ∧
      (uploadHandler job cred o now endTime).finalJob.error = some msg ∧
      (uploadHandler job cred o now endTime).finalJob.failedAt = some endTime) ∧
    (∀ (job : Job) (cred : Credential) (o : UploadOracle) (now endTime : String),
      (uploadHandler job cred o now endTime).trace.count Event.netDbCreate ≤ 1 ∧
      (uploadHandler job cred o now endTime).trace.count Event.netFtpCreds ≤ 1 ∧
      (uploadHandler job cred o now endTime).trace.count Event.netFtpUpload ≤ 1) ∧
    (∀ (files : List (String × String)) (ex : String → Bool) (em : String),
      checkRequiredFiles files ex = .error em →
      ∃ pr ∈ files, ex pr.1 = false ∧ em = pr.2 ++ " not found at: " ++ pr.1) :=
  ⟨uploadHandler_failed_record, uploadHandler_step_counts,
   checkRequiredFiles_error_spec⟩

/-- Witness for C2: a run whose database-provisioning step rejects with
`boom` ends failed with exactly that error and the failure timestamp, and a
missing logo in the required-files check is reported naming the logo
artifact. -/
theorem upload_failure_semantics_witness :
    ((uploadHandler job0 cred0 dbFailOracle "t1" "t2").finalJob.status = "failed" ∧
     (uploadHandler job0 cred0 dbFailOracle "t1" "t2").finalJob.error = some "boom" ∧
     (uploadHandler job0 cred0 dbFailOracle "t1" "t2").finalJob.failedAt = some "t2") ∧
    (∃ pr ∈ [("uploads/test-logo.png", "Logo: test-logo.png")],
      (fun _ => false : String → Bool) pr.1 = false ∧
      "Logo: test-logo.png not found at: uploads/test-logo.png" =
        pr.2 ++ " not found at: " ++ pr.1) :=
  ⟨upload_failure_semantics.1 job0 cred0 dbFailOracle "t1" "t2" "boom" rfl,
   upload_failure_semantics.2.2
     [("uploads/test-logo.png", "Logo: test-logo.png")] (fun _ => false) _ rfl⟩

/-- C3: `POST /api/resume-deploy/:jobId` on any job whose status is not
`waiting-for-db` fails with the InvalidState client error (400
`Job is not waiting for DB setup.`), performs no network step and writes
nothing: the job record is unchanged and the event trace is empty. -/
theorem resume_invalid_state_no_mutation (job : Job)
    (credLookup : String → Option Credential) (ftpOutcome : FtpResult)
    (transfer : TransferOracle) (now : String)
    (h : job.status ≠ "waiting-for-db") :
    (resumeHandler job credLookup ftpOutcome transfer now).response = .invalidState ∧
    (resumeHandler job credLookup ftpOutcome transfer now).finalJob = job ∧
    (resumeHandler job credLookup ftpOutcome transfer now).trace = [] := by
  simp [resumeHandler, h]

/-- Witness for C3: resuming a job already in `uploaded` state yields the
InvalidState error and no mutation. -/
theorem resume_invalid_state_no_mutation_witness :
    jobUploaded0.status ≠ "waiting-for-db" ∧
    (resumeHandler jobUploaded0 lookupAny ftpOk allOkTransfer "t3").response = .invalidState ∧
    (resumeHandler jobUploaded0 lookupAny ftpOk allOkTransfer "t3").finalJob = jobUploaded0 ∧
    (resumeHandler jobUploaded0 lookupAny ftpOk allOkTransfer "t3").trace = [] :=
  ⟨by decide,
   resume_invalid_state_no_mutation jobUploaded0 lookupAny ftpOk allOkTransfer
     "t3" (by decide)⟩

/-- C4: the validator iterates the fixed ordered candidate list
`validationEndpoints`; a 401 on the current candidate immediately yields the
definitive invalid result (independent of any remaining candidates), a 403
immediately yields the distinct access-restricted invalid result, a
fast-fail network error (`ENOTFOUND`, `ECONNREFUSED`, `ETIMEDOUT`)
short-circuits all remaining candidates into the generic failure carrying
that error, exhausting every candidate yields the generic failure carrying
the last error and the remediation suggestion, and
`validateCpanelCredentials` runs exactly this loop on the fixed list. -/
theorem cpanel_validation_probe_semantics :
    (∀ (host user : String) (port : Nat) (probe : String → ProbeOutcome)
      (ep : String) (rest : List String) (lastErr : Option String),
      (probe ep = .status 401 →
        validateLoop host user port probe (ep :: rest) lastErr =
          { valid := false, message := "Invalid username or password",
            host := host, username := user, port := port, endpoint := some ep }) ∧
      (probe ep = .status 403 →
        validateLoop host user port probe (ep :: rest) lastErr =
          { valid := false,
            message := "cPanel API access is disabled or restricted",
            host := host, username := user, port := port, endpoint := some ep }) ∧
      (∀ code m, probe ep = .netError code m → fastFailCode code = true →
        validateLoop host user port probe (ep :: rest) lastErr =
          genericValidationFailure host user port (some m))) ∧
    (∀ (host user : String) (port : Nat) (probe : String → ProbeOutcome)
      (lastErr : Option String),
      validateLoop host user port probe [] lastErr =
        genericValidationFailure host user port lastErr) ∧
    (∀ (h u p : String) (port : Nat) (probe : String → ProbeOutcome),
      h ≠ "" → u ≠ "" → p ≠ "" →
      validateCpanelCredentials (some h) (some u) (some p) port probe =
        .ok (validateLoop (cleanHost h) u port probe validationEndpoints none)) := by
  refine ⟨fun host user port probe ep rest lastErr => ⟨?_, ?_, ?_⟩, ?_, ?_⟩
  · intro h
    simp [validateLoop, h]
  · intro h
    simp [validateLoop, h]
  · intro code m h hf
    simp [validateLoop, h, hf]
  · intro host user port probe lastErr
    simp [validateLoop]
  · intro h u p port probe hh hu hp
    simp [validateCpanelCredentials, hh, hu, hp]

/-- Witness for C4: with every endpoint answering 401 the loop stops at the
first candidate with the definitive invalid result; with every probe failing
at the network level with `ENOTFOUND` the loop short-circuits into the
generic failure carrying that error; and the full validator on present
credentials runs the loop on the fixed candidate list. -/
theorem cpanel_validation_probe_semantics_witness :
    validateLoop "host1.example.com" "acct" 2083 probe401 validationEndpoints none =
      { valid := false, message := "Invalid username or password",
        host := "host1.example.com", username := "acct", port := 2083,
        endpoint := some "/execute/1/" } ∧
    validateLoop "host1.example.com" "acct" 2083 probeNetFail validationEndpoints none =
      genericValidationFailure "host1.example.com" "acct" 2083
        (some "getaddrinfo ENOTFOUND host1.example.com") ∧
    validateCpanelCredentials (some "host1.example.com") (some "acct")
        (some "pw12345") 2083 probe401 =
      .ok (validateLoop (cleanHost "host1.example.com") "acct" 2083 probe401
        validationEndpoints none) :=
  ⟨(cpanel_validation_probe_semantics.1 "host1.example.com" "acct" 2083 probe401
      "/execute/1/" ["/execute/", "/json-api/1/", "/json-api/"] none).1 rfl,
   (cpanel_validation_probe_semantics.1 "host1.example.com" "acct" 2083 probeNetFail
      "/execute/1/" ["/execute/", "/json-api/1/", "/json-api/"] none).2.2
      "ENOTFOUND" "getaddrinfo ENOTFOUND host1.example.com" rfl rfl,
   cpanel_validation_probe_semantics.2.2 "host1.example.com" "acct" "pw12345"
      2083 probe401 (by decide) (by decide) (by decide)⟩

/-- C5: with host, username and password all present, credential validation
always resolves with a result object (it rejects only when one of the three is
missing or empty), and database provisioning — a total function by
construction, mirroring the source's catch-all fallback — always resolves
either with real credentials (`manual = false`) or with a manual-instructions
object (`manual = true` and `instructions` set), for every behaviour of the
network. -/
theorem connector_downgrades_instead_of_throwing :
    (∀ (h u p : Option String) (port : Nat) (probe : String → ProbeOutcome),
      present h = true → present u = true → present p = true →
      ∃ r, validateCpanelCredentials h u p port probe = .ok r) ∧
    (∀ (h u p : Option String) (port : Nat) (probe : String → ProbeOutcome)
      (e : String),
      validateCpanelCredentials h u p port probe = .error e →
      present h = false ∨ present u = false ∨ present p = false) ∧
    (∀ (cfg : CpanelConfig) (domain : String) (o : ProvisionOracle),
      (createWordPressDatabase cfg domain o).manual = false ∨
      ((createWordPressDatabase cfg domain o).manual = true ∧
        ∃ i, (createWordPressDatabase cfg domain o).instructions = some i)) :=
  ⟨validateCpanelCredentials_ok_of_present,
   validateCpanelCredentials_error_imp_missing,
   createWordPressDatabase_total_shape⟩

/-- Witness for C5: present credentials validate to a result object even when
every endpoint answers 401; a missing host is reported as missing; and a
provisioning run whose connectivity tests both fail yields the manual
fallback shape. -/
theorem connector_downgrades_instead_of_throwing_witness :
    (∃ r, validateCpanelCredentials (some "host1.example.com") (some "acct")
      (some "pw12345") 2083 probe401 = .ok r) ∧
    (present (none : Option String) = false ∨
      present (some "acct") = false ∨ present (some "pw12345") = false) ∧
    ((createWordPressDatabase cfg0 "example.com" provisionFail0).manual = false ∨
      ((createWordPressDatabase cfg0 "example.com" provisionFail0).manual = true ∧
        ∃ i, (createWordPressDatabase cfg0 "example.com" provisionFail0).instructions = some i)) :=
  ⟨connector_downgrades_instead_of_throwing.1 (some "host1.example.com")
      (some "acct") (some "pw12345") 2083 probe401 (by decide) (by decide) (by decide),
   connector_downgrades_instead_of_throwing.2.1 none (some "acct")
      (some "pw12345") 2083 probe401
      "Missing required credentials (host, username, or password)" rfl,
   connector_downgrades_instead_of_throwing.2.2 cfg0 "example.com" provisionFail0⟩

/-- C6: `POST /save-credentials` persists only after validation passes: when
validation resolves `valid:false` the handler answers a client error and
writes no credential file, and every credential record the handler ever
writes carries `validatedAt` stamped with the save-time timestamp and stems
from a validation that resolved `valid:true`. -/
theorem save_credentials_validation_gate :
    (∀ (host user pass name : Option String) (port : Nat)
      (probe : String → ProbeOutcome) (uuid now : String) (vr : ValidationResult),
      validateCpanelCredentials host user pass port probe = .ok vr →
      vr.valid = false →
      (saveCredentialsHandler host user pass name port probe uuid now).response.isClientError = true ∧
      (saveCredentialsHandler host user pass name port probe uuid now).events = []) ∧
    (∀ (host user pass name : Option String) (port : Nat)
      (probe : String → ProbeOutcome) (uuid now id : String) (c : Credential),
      Event.credWrite id c ∈ (saveCredentialsHandler host user pass name port probe uuid now).events →
      c.validatedAt = some now ∧
      ∃ vr, validateCpanelCredentials host user pass port probe = .ok vr ∧
        vr.valid = true) :=
  ⟨fun host user pass name port probe uuid now vr =>
    saveCredentials_invalid_not_persisted host user pass name port probe uuid now vr,
   fun host user pass name port probe uuid now id c =>
    saveCredentials_persisted_is_validated host user pass name port probe uuid now id c⟩

/-- Witness for C6: a save attempt whose validation hits a simulated 401
answers a client error and writes nothing. -/
theorem save_credentials_validation_gate_witness :
    (saveCredentialsHandler (some "host1.example.com") (some "acct")
      (some "pw12345") (some "my host") 2083 probe401 "cred-1" "t0").response.isClientError = true ∧
    (saveCredentialsHandler (some "host1.example.com") (some "acct")
      (some "pw12345") (some "my host") 2083 probe401 "cred-1" "t0").events = [] :=
  save_credentials_validation_gate.1 (some "host1.example.com") (some "acct")
    (some "pw12345") (some "my host") 2083 probe401 "cred-1" "t0"
    { valid := false, message := "Invalid username or password",
      host := "host1.example.com", username := "acct", port := 2083,
      endpoint := some "/execute/1/" }
    (by rfl) rfl

/-- C7: for every start-upload run on an existing job and credential, the
first two externally visible events are, in order, the durable job-store
write of the record with status `uploading` and the upload-start timestamp,
and then the database-provisioning network call — so no network step precedes
the persisted `uploading` state. -/
theorem upload_persists_before_network (job : Job) (cred : Credential)
    (o : UploadOracle) (now endTime : String) :
    (uploadHandler job cred o now endTime).trace.take 2 =
      [Event.jobWrite job.id
        { job with status := "uploading", uploadStartedAt := some now },
       Event.netDbCreate] := by
  unfold uploadHandler
  rcases hdb : o.dbOutcome with m | db <;> simp only [hdb, uploadFail]
  · simp
  · split
    · simp
    · split
      · simp
      · rcases hup : uploadToFtp o.ftpOutcome.credentials _ o.transfer with m' | u <;>
          simp only [hup] <;> simp

/-- C8: every password the local generator produces for manual database
setup — any permutation of the generated characters, whatever the random
picks — has length at least 16 and contains at least one uppercase letter,
one lowercase letter, one digit and one symbol: the per-category guarantees
survive the shuffle. -/
theorem generated_password_complexity (picks : Nat → Nat) (out : List Char)
    (hperm : List.Perm out (generatedPasswordChars picks)) :
    16 ≤ out.length ∧
    (∃ c ∈ out, c ∈ uppercaseChars) ∧
    (∃ c ∈ out, c ∈ lowercaseChars) ∧
    (∃ c ∈ out, c ∈ numberChars) ∧
    (∃ c ∈ out, c ∈ symbolChars) := by
  refine ⟨?_, ?_, ?_, ?_, ?_⟩
  · rw [hperm.length_eq]
    simp [generatedPasswordChars]
  · exact ⟨pickChar uppercaseChars (picks 0),
      hperm.mem_iff.2 (by simp [generatedPasswordChars]),
      pickChar_mem _ (by decide) _⟩
  · exact ⟨pickChar lowercaseChars (picks 1),
      hperm.mem_iff.2 (by simp [generatedPasswordChars]),
      pickChar_mem _ (by decide) _⟩
  · exact ⟨pickChar numberChars (picks 2),
      hperm.mem_iff.2 (by simp [generatedPasswordChars]),
      pickChar_mem _ (by decide) _⟩
  · exact ⟨pickChar symbolChars (picks 3),
      hperm.mem_iff.2 (by simp [generatedPasswordChars]),
      pickChar_mem _ (by decide) _⟩

/-- Witness for C8: the unshuffled generated characters themselves (the
identity permutation) with all picks 0 satisfy every complexity guarantee. -/
theorem generated_password_complexity_witness :
    16 ≤ (generatedPasswordChars (fun _ => 0)).length ∧
    (∃ c ∈ generatedPasswordChars (fun _ => 0), c ∈ uppercaseChars) ∧
    (∃ c ∈ generatedPasswordChars (fun _ => 0), c ∈ lowercaseChars) ∧
    (∃ c ∈ generatedPasswordChars (fun _ => 0), c ∈ numberChars) ∧
    (∃ c ∈ generatedPasswordChars (fun _ => 0), c ∈ symbolChars) :=
  generated_password_complexity (fun _ => 0) (generatedPasswordChars (fun _ => 0))
    (List.Perm.refl _)

/-- C9: `POST /deploy` rejects the domain `bad_domain` with a 400 and creates
no job record (whatever the other submitted fields), accepts the domain
`example.com` (a full valid submission creates exactly one job record), and
every job a deploy submission creates has status exactly `created`. -/
theorem deploy_domain_validation :
    (∀ (t e p a l uuid now : String),
      t ≠ "" → e ≠ "" → p ≠ "" → a ≠ "" → l ≠ "" →
      deployHandler
        { template := some t, domain := some "bad_domain", email := some e,
          phone := some p, address := some a, logo := some l } uuid now =
        { response := .invalidDomain, events := [] }) ∧
    (∀ uuid now : String,
      deployHandler req0 uuid now =
        { response := .created uuid
            (deployJobRecord "business-template" "example.com"
              "admin@example.com" "+1234567890" "123 Main St" "test-logo.png"
              uuid now),
          events := [Event.jobWrite uuid
            (deployJobRecord "business-template" "example.com"
              "admin@example.com" "+1234567890" "123 Main St" "test-logo.png"
              uuid now)] }) ∧
    (∀ (req : DeployRequest) (uuid now id : String) (j : Job),
      (deployHandler req uuid now).response = .created id j →
      j.status = "created") :=
  ⟨deployHandler_reject_bad_domain, deployHandler_accept_example_com,
   deployHandler_created_status⟩

/-- Witness for C9: a concrete submission with domain `bad_domain` is
rejected with no events, and the job of a concrete accepted submission has
status `created`. -/
theorem deploy_domain_validation_witness :
    deployHandler
      { template := some "business-template", domain := some "bad_domain",
        email := some "admin@example.com", phone := some "+1234567890",
        address := some "123 Main St", logo := some "test-logo.png" }
      "job-9" "t9" =
      { response := .invalidDomain, events := [] } ∧
    (deployJobRecord "business-template" "example.com" "admin@example.com"
      "+1234567890" "123 Main St" "test-logo.png" "job-1" "t0").status = "created" :=
  ⟨deploy_domain_validation.1 "business-template" "admin@example.com"
      "+1234567890" "123 Main St" "test-logo.png" "job-9" "t9"
      (by decide) (by decide) (by decide) (by decide) (by decide),
   deploy_domain_validation.2.2 req0 "job-1" "t0" "job-1"
      (deployJobRecord "business-template" "example.com" "admin@example.com"
        "+1234567890" "123 Main St" "test-logo.png" "job-1" "t0") rfl⟩

/-- C10 counterexample: a job produced by the system's own deploy operation
(`job0`, the record `POST /deploy` writes for `req0`) makes resume fail with
the InvalidState error — not with a Credential-not-found error — even with a
credential store answering every lookup key, because the status guard fires
before the credential lookup. -/
theorem resume_on_deployed_job_not_credential_error :
    (deployHandler req0 "job-1" "t0").response = .created "job-1" job0 ∧
    Event.jobWrite "job-1" job0 ∈ (deployHandler req0 "job-1" "t0").events ∧
    (resumeHandler job0 lookupAny ftpOk allOkTransfer "t3").response = .invalidState ∧
    (resumeHandler job0 lookupAny ftpOk allOkTransfer "t3").response ≠ .credentialNotFound ∧
    (resumeHandler job0 lookupAny ftpOk allOkTransfer "t3").trace = [] := by
  decide

/-- C10 (amended): no operation of the system ever writes a `credentialId`
field into a persisted job record — the resume handler is the only reader of
that field — and, because no operation ever writes the status
`waiting-for-db` either, resume on every job produced and mutated solely by
this system's own operations fails with the InvalidState client error before
its credential lookup is ever reached, leaving the record untouched. -/
theorem system_jobs_resume_invalid_state (j : Job) (hj : SystemJob j) :
    j.credentialId = none ∧ j.status ≠ "waiting-for-db" ∧
    (∀ (credLookup : String → Option Credential) (f : FtpResult)
      (tr : TransferOracle) (t : String),
      (resumeHandler j credLookup f tr t).response = .invalidState ∧
      (resumeHandler j credLookup f tr t).finalJob = j ∧
      (resumeHandler j credLookup f tr t).trace = []) := by
  have hinv := systemJob_inv j hj
  exact ⟨hinv.1, hinv.2, fun lk f tr t => by simp [resumeHandler, hinv.2]⟩

/-- Witness for C10 (amended): the deploy-produced `job0` has no
`credentialId`, is not in `waiting-for-db`, and resume on it answers the
InvalidState error. -/
theorem system_jobs_resume_invalid_state_witness :
    job0.credentialId = none ∧ job0.status ≠ "waiting-for-db" ∧
    (resumeHandler job0 lookupAny ftpOk allOkTransfer "t9").response = .invalidState := by
  have hs : SystemJob job0 :=
    SystemJob.deploy req0 "job-1" "t0" "job-1" job0 (by decide)
  have h := system_jobs_resume_invalid_state job0 hs
  exact ⟨h.1, h.2.1, (h.2.2 lookupAny ftpOk allOkTransfer "t9").1⟩

end WordpressDeployer
